import Mathlib

/-!
Shallow embedding of the ROI-calculator widget
(`src/components/ROICalculator.tsx`).

Modelling conventions:
* a TypeScript field of type `number | ''` becomes `Option ℚ`
  (`none` is the empty string, i.e. the "unset" state);
* JavaScript numeric coercion `Number(x)` on such a field becomes
  `numOr0` (`Number('') = 0`);
* `Math.round` becomes `mathRound`, rounding half toward positive
  infinity, which is the JavaScript semantics;
* the stored `impact` values are the results of `Math.round`, hence `ℤ`;
* `Intl.NumberFormat('en-US')` on the whole numbers the fields actually
  hold is modelled as decimal digits grouped in threes by commas.
-/

namespace ROICalculator

/-- State of the Admin Waste section: three input fields plus the computed
impact (interface `CalculatorState.adminWaste`). -/
structure AdminWasteState where
  annualSalary : Option ℚ
  hoursPerWeek : Option ℚ
  numberOfMGOs : Option ℚ
  impact : ℤ
deriving DecidableEq

/-- State of the Siloed Collaboration section (interface
`CalculatorState.siloedCollaboration`). -/
structure SiloedCollaborationState where
  annualSalary : Option ℚ
  hoursWasted : Option ℚ
  numberOfUsers : Option ℚ
  impact : ℤ
deriving DecidableEq

/-- State of the Missed Upgrades section (interface
`CalculatorState.missedUpgrades`). -/
structure MissedUpgradesState where
  upgradableDonors : Option ℚ
  averageGiftSize : Option ℚ
  upgradePercentage : Option ℚ
  realizationRate : Option ℚ
  impact : ℤ
deriving DecidableEq

/-- State of the Donor Lapse section (interface
`CalculatorState.donorLapse`). -/
structure DonorLapseState where
  lapsedDonors : Option ℚ
  averageGift : Option ℚ
  numberOfPortfolios : Option ℚ
  impact : ℤ
deriving DecidableEq

/-- The calculator state: the four sections (interface `CalculatorState`). -/
structure CalculatorState where
  adminWaste : AdminWasteState
  siloedCollaboration : SiloedCollaborationState
  missedUpgrades : MissedUpgradesState
  donorLapse : DonorLapseState
deriving DecidableEq

/-- The initial state passed to `useState`: every input field is the empty
string and every impact is 0. -/
def initialState : CalculatorState where
  adminWaste := { annualSalary := none, hoursPerWeek := none, numberOfMGOs := none, impact := 0 }
  siloedCollaboration := { annualSalary := none, hoursWasted := none, numberOfUsers := none, impact := 0 }
  missedUpgrades := { upgradableDonors := none, averageGiftSize := none, upgradePercentage := none, realizationRate := none, impact := 0 }
  donorLapse := { lapsedDonors := none, averageGift := none, numberOfPortfolios := none, impact := 0 }

/-- Numeric value of a decimal digit character. -/
def charDigitVal (c : Char) : ℕ := c.toNat - 48

/-- Value of a big-endian list of decimal digit characters, as computed by
JavaScript `Number` on a string of digits. -/
def digitsToNat (l : List Char) : ℕ := l.foldl (fun a c => 10 * a + charDigitVal c) 0

/-- Helper function to parse formatted number input (`parseFormattedNumber`):
the empty string stays empty; otherwise all non-digit characters are removed
(the regex `[^\d]` matches exactly the characters other than 0-9, which
`Char.isDigit` tests), and the remaining digits are read as a number, or the
field stays empty when no digit remains. -/
def parseFormattedNumber (value : String) : Option ℚ :=
  if value = "" then none
  else
    let digitsOnly := value.data.filter Char.isDigit
    if digitsOnly = [] then none
    else some ((digitsToNat digitsOnly : ℕ) : ℚ)

/-- Big-endian decimal digit characters of a natural number. -/
def natToDigits (n : ℕ) : List Char :=
  if _h : n < 10 then [Nat.digitChar n]
  else natToDigits (n / 10) ++ [Nat.digitChar (n % 10)]
termination_by n
decreasing_by exact Nat.div_lt_self (by omega) (by omega)

/-- Thousands grouping of `Intl.NumberFormat` with the en-US locale on a
whole number: a comma is inserted after a digit exactly when the number of
digits still to come is a positive multiple of three. -/
def groupDigits : List Char → List Char
  | [] => []
  | c :: rest =>
      if rest.length % 3 = 0 ∧ rest ≠ [] then c :: ',' :: groupDigits rest
      else c :: groupDigits rest

/-- Helper function to format number with commas (`formatNumber`),
specialised to the whole-number values the fields actually hold;
`Intl.NumberFormat` en-US is modelled by `groupDigits`. -/
def formatNumberNat (n : ℕ) : String := String.mk (groupDigits (natToDigits n))

/-- JavaScript `Math.round`: round to the nearest integer, halves toward
positive infinity. -/
def mathRound (q : ℚ) : ℤ := ⌊q + 1 / 2⌋

/-- JavaScript `Number` coercion on a `number | ''` field: the empty string
coerces to 0. -/
def numOr0 (o : Option ℚ) : ℚ := o.getD 0

/-- The `adminWasteImpact` expression computed inside `calculateImpact`. -/
def adminWasteImpactRaw (s : CalculatorState) : ℚ :=
  numOr0 s.adminWaste.annualSalary / 2080 *
    numOr0 s.adminWaste.hoursPerWeek * 52 *
    numOr0 s.adminWaste.numberOfMGOs

/-- The `siloedCollaborationImpact` expression computed inside
`calculateImpact`. -/
def siloedCollaborationImpactRaw (s : CalculatorState) : ℚ :=
  numOr0 s.siloedCollaboration.annualSalary / 2080 *
    numOr0 s.siloedCollaboration.hoursWasted * 52 *
    numOr0 s.siloedCollaboration.numberOfUsers

/-- The `missedUpgradesImpact` expression computed inside `calculateImpact`. -/
def missedUpgradesImpactRaw (s : CalculatorState) : ℚ :=
  numOr0 s.missedUpgrades.upgradableDonors *
    numOr0 s.missedUpgrades.averageGiftSize *
    (numOr0 s.missedUpgrades.upgradePercentage / 100) *
    (numOr0 s.missedUpgrades.realizationRate / 100)

/-- The `donorLapseImpact` expression computed inside `calculateImpact`:
`lostDonorValue = lapsedDonors * averageGift`, then times
`numberOfPortfolios`. -/
def donorLapseImpactRaw (s : CalculatorState) : ℚ :=
  let lostDonorValue := numOr0 s.donorLapse.lapsedDonors * numOr0 s.donorLapse.averageGift
  lostDonorValue * numOr0 s.donorLapse.numberOfPortfolios

/-- The `calculateImpact` handler: one `setCalculatorState` call that keeps
every input field and overwrites the four impact fields with the rounded
results of the four formulas. -/
def calculateImpact (s : CalculatorState) : CalculatorState where
  adminWaste := { s.adminWaste with impact := mathRound (adminWasteImpactRaw s) }
  siloedCollaboration := { s.siloedCollaboration with impact := mathRound (siloedCollaborationImpactRaw s) }
  missedUpgrades := { s.missedUpgrades with impact := mathRound (missedUpgradesImpactRaw s) }
  donorLapse := { s.donorLapse with impact := mathRound (donorLapseImpactRaw s) }

/-- The `totalImpact` memo: sum of the four impacts. -/
def totalImpact (s : CalculatorState) : ℤ :=
  s.adminWaste.impact + s.siloedCollaboration.impact +
    s.missedUpgrades.impact + s.donorLapse.impact

/-- The `wastedAnnualSalarySpend` memo. -/
def wastedAnnualSalarySpend (s : CalculatorState) : ℤ :=
  s.adminWaste.impact + s.siloedCollaboration.impact

/-- The `opportunityCost` memo. -/
def opportunityCost (s : CalculatorState) : ℤ :=
  s.missedUpgrades.impact + s.donorLapse.impact

/-- One entry of the pie-chart data. -/
structure ChartEntry where
  name : String
  value : ℤ
  color : String
  category : String
deriving DecidableEq

/-- The `chartData` memo: the four fixed entries, filtered to those with
`value > 0`. -/
def chartData (s : CalculatorState) : List ChartEntry :=
  ([{ name := "Manual Admin Waste", value := s.adminWaste.impact,
      color := "#6A1B9A", category := "Wasted Annual Salary Spend" },
    { name := "Siloed Collaboration", value := s.siloedCollaboration.impact,
      color := "#8E24AA", category := "Wasted Annual Salary Spend" },
    { name := "Missed Upgrades", value := s.missedUpgrades.impact,
      color := "#AB47BC", category := "Opportunity Cost" },
    { name := "Donor Lapse", value := s.donorLapse.impact,
      color := "#42F2F7", category := "Opportunity Cost" }] : List ChartEntry).filter
    (fun item => 0 < item.value)

/-- The four section keys of `CalculatorState`. -/
inductive Section where
  | adminWaste
  | siloedCollaboration
  | missedUpgrades
  | donorLapse
deriving DecidableEq

/-- The `sections` array of `findNextIncompleteSection`, in declaration
order. -/
def sectionsOrder : List Section :=
  [.adminWaste, .siloedCollaboration, .missedUpgrades, .donorLapse]

/-- Index of a section in `sectionsOrder` (`sections.indexOf(activeTab)`). -/
def sectionIndex : Section → ℕ
  | .adminWaste => 0
  | .siloedCollaboration => 1
  | .missedUpgrades => 2
  | .donorLapse => 3

/-- The `isSectionComplete` check: every entry of the section other than
`impact` differs from the empty string. -/
def isSectionComplete (sec : Section) (s : CalculatorState) : Bool :=
  match sec with
  | .adminWaste =>
      s.adminWaste.annualSalary.isSome && s.adminWaste.hoursPerWeek.isSome &&
        s.adminWaste.numberOfMGOs.isSome
  | .siloedCollaboration =>
      s.siloedCollaboration.annualSalary.isSome && s.siloedCollaboration.hoursWasted.isSome &&
        s.siloedCollaboration.numberOfUsers.isSome
  | .missedUpgrades =>
      s.missedUpgrades.upgradableDonors.isSome && s.missedUpgrades.averageGiftSize.isSome &&
        s.missedUpgrades.upgradePercentage.isSome && s.missedUpgrades.realizationRate.isSome
  | .donorLapse =>
      s.donorLapse.lapsedDonors.isSome && s.donorLapse.averageGift.isSome &&
        s.donorLapse.numberOfPortfolios.isSome

/-- The `allSectionsCompleted` memo. -/
def allSectionsCompleted (s : CalculatorState) : Bool :=
  isSectionComplete .adminWaste s && isSectionComplete .siloedCollaboration s &&
    isSectionComplete .missedUpgrades s && isSectionComplete .donorLapse s

/-- The `findNextIncompleteSection` handler: scan the sections after the
active tab, then the sections strictly before it, and fall back to the
active tab. The two `for` loops are the two `find?` calls. -/
def findNextIncompleteSection (s : CalculatorState) (activeTab : Section) : Section :=
  let currentIndex := sectionIndex activeTab
  match (sectionsOrder.drop (currentIndex + 1)).find? (fun sec => !isSectionComplete sec s) with
  | some sec => sec
  | none =>
      match (sectionsOrder.take currentIndex).find? (fun sec => !isSectionComplete sec s) with
      | some sec => sec
      | none => activeTab

/-- The input fields of the four sections, as the `(section, field)` pairs
`handleInputChange` receives from the input widgets. -/
inductive Field where
  | awAnnualSalary
  | awHoursPerWeek
  | awNumberOfMGOs
  | scAnnualSalary
  | scHoursWasted
  | scNumberOfUsers
  | muUpgradableDonors
  | muAverageGiftSize
  | muUpgradePercentage
  | muRealizationRate
  | dlLapsedDonors
  | dlAverageGift
  | dlNumberOfPortfolios
deriving DecidableEq

/-- The section a field belongs to (the first argument of
`handleInputChange`). -/
def fieldSection : Field → Section
  | .awAnnualSalary => .adminWaste
  | .awHoursPerWeek => .adminWaste
  | .awNumberOfMGOs => .adminWaste
  | .scAnnualSalary => .siloedCollaboration
  | .scHoursWasted => .siloedCollaboration
  | .scNumberOfUsers => .siloedCollaboration
  | .muUpgradableDonors => .missedUpgrades
  | .muAverageGiftSize => .missedUpgrades
  | .muUpgradePercentage => .missedUpgrades
  | .muRealizationRate => .missedUpgrades
  | .dlLapsedDonors => .donorLapse
  | .dlAverageGift => .donorLapse
  | .dlNumberOfPortfolios => .donorLapse

/-- The input fields of a section, in declaration order, excluding
`impact`. -/
def sectionInputFields : Section → List Field
  | .adminWaste => [.awAnnualSalary, .awHoursPerWeek, .awNumberOfMGOs]
  | .siloedCollaboration => [.scAnnualSalary, .scHoursWasted, .scNumberOfUsers]
  | .missedUpgrades => [.muUpgradableDonors, .muAverageGiftSize, .muUpgradePercentage, .muRealizationRate]
  | .donorLapse => [.dlLapsedDonors, .dlAverageGift, .dlNumberOfPortfolios]

/-- Read one input field of the state. -/
def getField (f : Field) (s : CalculatorState) : Option ℚ :=
  match f with
  | .awAnnualSalary => s.adminWaste.annualSalary
  | .awHoursPerWeek => s.adminWaste.hoursPerWeek
  | .awNumberOfMGOs => s.adminWaste.numberOfMGOs
  | .scAnnualSalary => s.siloedCollaboration.annualSalary
  | .scHoursWasted => s.siloedCollaboration.hoursWasted
  | .scNumberOfUsers => s.siloedCollaboration.numberOfUsers
  | .muUpgradableDonors => s.missedUpgrades.upgradableDonors
  | .muAverageGiftSize => s.missedUpgrades.averageGiftSize
  | .muUpgradePercentage => s.missedUpgrades.upgradePercentage
  | .muRealizationRate => s.missedUpgrades.realizationRate
  | .dlLapsedDonors => s.donorLapse.lapsedDonors
  | .dlAverageGift => s.donorLapse.averageGift
  | .dlNumberOfPortfolios => s.donorLapse.numberOfPortfolios

/-- The `handleInputChange` handler: parse the raw text with
`parseFormattedNumber` and store the result in the one named field,
spreading the rest of the state unchanged. -/
def handleInputChange (f : Field) (value : String) (s : CalculatorState) : CalculatorState :=
  let numValue := parseFormattedNumber value
  match f with
  | .awAnnualSalary => { s with adminWaste := { s.adminWaste with annualSalary := numValue } }
  | .awHoursPerWeek => { s with adminWaste := { s.adminWaste with hoursPerWeek := numValue } }
  | .awNumberOfMGOs => { s with adminWaste := { s.adminWaste with numberOfMGOs := numValue } }
  | .scAnnualSalary => { s with siloedCollaboration := { s.siloedCollaboration with annualSalary := numValue } }
  | .scHoursWasted => { s with siloedCollaboration := { s.siloedCollaboration with hoursWasted := numValue } }
  | .scNumberOfUsers => { s with siloedCollaboration := { s.siloedCollaboration with numberOfUsers := numValue } }
  | .muUpgradableDonors => { s with missedUpgrades := { s.missedUpgrades with upgradableDonors := numValue } }
  | .muAverageGiftSize => { s with missedUpgrades := { s.missedUpgrades with averageGiftSize := numValue } }
  | .muUpgradePercentage => { s with missedUpgrades := { s.missedUpgrades with upgradePercentage := numValue } }
  | .muRealizationRate => { s with missedUpgrades := { s.missedUpgrades with realizationRate := numValue } }
  | .dlLapsedDonors => { s with donorLapse := { s.donorLapse with lapsedDonors := numValue } }
  | .dlAverageGift => { s with donorLapse := { s.donorLapse with averageGift := numValue } }
  | .dlNumberOfPortfolios => { s with donorLapse := { s.donorLapse with numberOfPortfolios := numValue } }

/-- The four impact fields, bundled. -/
def impacts (s : CalculatorState) : ℤ × ℤ × ℤ × ℤ :=
  (s.adminWaste.impact, s.siloedCollaboration.impact,
    s.missedUpgrades.impact, s.donorLapse.impact)

/-- All thirteen input fields, bundled. -/
structure Inputs where
  awAnnualSalary : Option ℚ
  awHoursPerWeek : Option ℚ
  awNumberOfMGOs : Option ℚ
  scAnnualSalary : Option ℚ
  scHoursWasted : Option ℚ
  scNumberOfUsers : Option ℚ
  muUpgradableDonors : Option ℚ
  muAverageGiftSize : Option ℚ
  muUpgradePercentage : Option ℚ
  muRealizationRate : Option ℚ
  dlLapsedDonors : Option ℚ
  dlAverageGift : Option ℚ
  dlNumberOfPortfolios : Option ℚ
deriving DecidableEq

/-- The input-field part of the state. -/
def inputsOf (s : CalculatorState) : Inputs where
  awAnnualSalary := s.adminWaste.annualSalary
  awHoursPerWeek := s.adminWaste.hoursPerWeek
  awNumberOfMGOs := s.adminWaste.numberOfMGOs
  scAnnualSalary := s.siloedCollaboration.annualSalary
  scHoursWasted := s.siloedCollaboration.hoursWasted
  scNumberOfUsers := s.siloedCollaboration.numberOfUsers
  muUpgradableDonors := s.missedUpgrades.upgradableDonors
  muAverageGiftSize := s.missedUpgrades.averageGiftSize
  muUpgradePercentage := s.missedUpgrades.upgradePercentage
  muRealizationRate := s.missedUpgrades.realizationRate
  dlLapsedDonors := s.donorLapse.lapsedDonors
  dlAverageGift := s.donorLapse.averageGift
  dlNumberOfPortfolios := s.donorLapse.numberOfPortfolios

/-- States the widget can reach: the initial state, followed by any
interleaving of field edits (`handleInputChange`) and calculation runs
(`calculateImpact`). -/
inductive Reachable : CalculatorState → Prop where
  | init : Reachable initialState
  | edit (f : Field) (v : String) (s : CalculatorState) :
      Reachable s → Reachable (handleInputChange f v s)
  | calcRun (s : CalculatorState) : Reachable s → Reachable (calculateImpact s)

/-- A field value the state invariant allows: unset, or a set non-negative
number. -/
def optNonneg (o : Option ℚ) : Prop := ∀ q : ℚ, o = some q → 0 ≤ q

/-- Example state used by the spec: AdminWaste(125000, 15, 4),
DonorLapse(15, 10000, 2), and the placeholder values of the other two
sections. -/
def exampleState : CalculatorState where
  adminWaste := { annualSalary := some 125000, hoursPerWeek := some 15, numberOfMGOs := some 4, impact := 0 }
  siloedCollaboration := { annualSalary := some 75000, hoursWasted := some 5, numberOfUsers := some 2, impact := 0 }
  missedUpgrades := { upgradableDonors := some 65, averageGiftSize := some 10000, upgradePercentage := some 50, realizationRate := some 50, impact := 0 }
  donorLapse := { lapsedDonors := some 15, averageGift := some 10000, numberOfPortfolios := some 2, impact := 0 }

/-- State with completion flags [true, false, true, true]: the Siloed
Collaboration section is missing `numberOfUsers`, the other three sections
are fully filled in. -/
def exampleC3State : CalculatorState where
  adminWaste := { annualSalary := some 125000, hoursPerWeek := some 15, numberOfMGOs := some 4, impact := 0 }
  siloedCollaboration := { annualSalary := some 75000, hoursWasted := some 5, numberOfUsers := none, impact := 0 }
  missedUpgrades := { upgradableDonors := some 65, averageGiftSize := some 10000, upgradePercentage := some 50, realizationRate := some 50, impact := 0 }
  donorLapse := { lapsedDonors := some 15, averageGift := some 10000, numberOfPortfolios := some 2, impact := 0 }

/-! Helper lemmas shared by the claim theorems. -/

theorem getField_handleInputChange (f : Field) (v : String) (s : CalculatorState) (g : Field) :
    getField g (handleInputChange f v s) =
      if g = f then parseFormattedNumber v else getField g s := by
  cases f <;> cases g <;> simp [getField, handleInputChange]

theorem impacts_handleInputChange (f : Field) (v : String) (s : CalculatorState) :
    impacts (handleInputChange f v s) = impacts s := by
  cases f <;> rfl

theorem getField_calculateImpact (s : CalculatorState) (g : Field) :
    getField g (calculateImpact s) = getField g s := by
  cases g <;> rfl

theorem inputsOf_calculateImpact (s : CalculatorState) :
    inputsOf (calculateImpact s) = inputsOf s := rfl

theorem impacts_calculateImpact (s : CalculatorState) :
    impacts (calculateImpact s) =
      (mathRound (adminWasteImpactRaw s), mathRound (siloedCollaborationImpactRaw s),
        mathRound (missedUpgradesImpactRaw s), mathRound (donorLapseImpactRaw s)) := rfl

theorem parseFormattedNumber_eq_none_or_nat (v : String) :
    parseFormattedNumber v = none ∨
      ∃ n : ℕ, parseFormattedNumber v = some ((n : ℕ) : ℚ) := by
  unfold parseFormattedNumber
  split
  · exact Or.inl rfl
  · simp only []
    split
    · exact Or.inl rfl
    · exact Or.inr ⟨_, rfl⟩

theorem parseFormattedNumber_nonneg (v : String) (q : ℚ)
    (h : parseFormattedNumber v = some q) : 0 ≤ q := by
  rcases parseFormattedNumber_eq_none_or_nat v with hn | ⟨n, hn⟩ <;> rw [hn] at h
  · exact absurd h (Option.noConfusion)
  · obtain rfl : (n : ℚ) = q := Option.some.injEq .. ▸ h
    exact Nat.cast_nonneg n

theorem find?_two_phase {α : Type} (p : α → Bool) (l1 l2 : List α) (a : α) :
    (match l1.find? p with
      | some x => x
      | none =>
          match l2.find? p with
          | some y => y
          | none => a) = ((l1 ++ l2).find? p).getD a := by
  induction l1 with
  | nil =>
      simp only [List.find?, List.nil_append]
      cases l2.find? p <;> rfl
  | cons c t ih =>
      cases hc : p c <;> simp [List.find?, hc, ih]

theorem charDigitVal_digitChar (d : ℕ) (h : d < 10) :
    charDigitVal (Nat.digitChar d) = d := by
  interval_cases d <;> rfl

theorem isDigit_digitChar (d : ℕ) (h : d < 10) :
    (Nat.digitChar d).isDigit = true := by
  interval_cases d <;> rfl

theorem natToDigits_ne_nil (n : ℕ) : natToDigits n ≠ [] := by
  rw [natToDigits]
  split <;> simp

theorem natToDigits_all_digits (n : ℕ) :
    ∀ c ∈ natToDigits n, c.isDigit = true := by
  induction n using Nat.strong_induction_on with
  | _ n ih =>
    rw [natToDigits]
    split
    · next h =>
      intro c hc
      rw [List.mem_singleton] at hc
      subst hc
      exact isDigit_digitChar n h
    · next h =>
      intro c hc
      rw [List.mem_append] at hc
      rcases hc with hc | hc
      · exact ih (n / 10) (Nat.div_lt_self (by omega) (by omega)) c hc
      · rw [List.mem_singleton] at hc
        subst hc
        exact isDigit_digitChar (n % 10) (Nat.mod_lt _ (by omega))

theorem foldl_natToDigits (n : ℕ) :
    ∀ a : ℕ, List.foldl (fun a c => 10 * a + charDigitVal c) a (natToDigits n) =
      a * 10 ^ (natToDigits n).length + n := by
  induction n using Nat.strong_induction_on with
  | _ n ih =>
    intro a
    rw [natToDigits]
    split
    · next h =>
      simp only [List.foldl, List.length_cons, List.length_nil, charDigitVal_digitChar n h,
        pow_one, zero_add]
      ring
    · next h =>
      rw [List.foldl_append, List.length_append,
        ih (n / 10) (Nat.div_lt_self (by omega) (by omega))]
      simp only [List.foldl, List.length_cons, List.length_nil, zero_add,
        charDigitVal_digitChar (n % 10) (Nat.mod_lt _ (by omega))]
      calc 10 * ((a * 10 ^ (natToDigits (n / 10)).length + n / 10)) + n % 10
          = a * (10 ^ (natToDigits (n / 10)).length * 10) + (10 * (n / 10) + n % 10) := by ring
        _ = a * 10 ^ ((natToDigits (n / 10)).length + 1) + n := by
            rw [Nat.div_add_mod, pow_succ]

theorem digitsToNat_natToDigits (n : ℕ) : digitsToNat (natToDigits n) = n := by
  have h := foldl_natToDigits n 0
  simpa [digitsToNat] using h

theorem comma_not_digit : Char.isDigit ',' = false := rfl

theorem filter_groupDigits (l : List Char) (h : ∀ c ∈ l, c.isDigit = true) :
    (groupDigits l).filter Char.isDigit = l := by
  induction l with
  | nil => rfl
  | cons c t ih =>
    have hc : c.isDigit = true := h c (List.mem_cons_self c t)
    have ht : ∀ x ∈ t, x.isDigit = true := fun x hx => h x (List.mem_cons_of_mem c hx)
    rw [groupDigits]
    split
    · simp [List.filter_cons, hc, comma_not_digit, ih ht]
    · simp [List.filter_cons, hc, ih ht]

theorem parseFormattedNumber_mk (l : List Char) :
    parseFormattedNumber (String.mk l) =
      if l.filter Char.isDigit = [] then none
      else some ((digitsToNat (l.filter Char.isDigit) : ℕ) : ℚ) := by
  unfold parseFormattedNumber
  by_cases h : String.mk l = ""
  · obtain rfl : l = [] := by simpa using congrArg String.data h
    simp
  · rw [if_neg h]

/-! Claim theorems. -/

/-- C10: for every non-negative integer n, parsing the display-formatted
rendering of n round-trips to n: the thousands separators inserted by
formatting are exactly the non-digit characters stripped by parsing, so
re-rendering a field never changes its stored value. -/
theorem claim10_format_parse_roundtrip (n : ℕ) :
    parseFormattedNumber (formatNumberNat n) = some ((n : ℕ) : ℚ) := by
  unfold formatNumberNat
  rw [parseFormattedNumber_mk, filter_groupDigits _ (natToDigits_all_digits n),
    if_neg (natToDigits_ne_nil n), digitsToNat_natToDigits]

/-- C2: parseFormattedNumber strips all non-digit characters (decimal
points, minus signs, commas, letters) and reads the remaining digits as a
whole number; when no digit remains the field becomes unset, not zero.
"1,250abc" parses to 1250, and "" or "abc" parse to unset. -/
theorem claim2_parse_strips_non_digits :
    parseFormattedNumber "1,250abc" = some 1250 ∧
    parseFormattedNumber "" = none ∧
    parseFormattedNumber "abc" = none ∧
    parseFormattedNumber "-12.5" = some 125 ∧
    (∀ v : String,
      (parseFormattedNumber v = none ↔ v.data.filter Char.isDigit = []) ∧
      (v.data.filter Char.isDigit ≠ [] →
        parseFormattedNumber v =
          some ((digitsToNat (v.data.filter Char.isDigit) : ℕ) : ℚ))) := by
  refine ⟨by decide, rfl, by decide, by decide, fun v => ?_⟩
  obtain ⟨l⟩ := v
  rw [parseFormattedNumber_mk]
  constructor
  · split
    · next h => simpa using h
    · next h => simpa using h
  · intro h
    rw [if_neg h]

/-- C4: totalImpact is the sum of all four section impacts,
wastedAnnualSalarySpend is the adminWaste impact plus the
siloedCollaboration impact, and opportunityCost is the missedUpgrades
impact plus the donorLapse impact. -/
theorem claim4_aggregates (s : CalculatorState) :
    totalImpact s =
      s.adminWaste.impact + s.siloedCollaboration.impact +
        s.missedUpgrades.impact + s.donorLapse.impact ∧
    wastedAnnualSalarySpend s = s.adminWaste.impact + s.siloedCollaboration.impact ∧
    opportunityCost s = s.missedUpgrades.impact + s.donorLapse.impact ∧
    totalImpact s = wastedAnnualSalarySpend s + opportunityCost s := by
  refine ⟨rfl, rfl, rfl, ?_⟩
  unfold totalImpact wastedAnnualSalarySpend opportunityCost
  ring

/-- C5: chartData holds exactly one entry per section with strictly
positive impact, carrying that section's impact as value, its fixed name
and color, and its category (Wasted Annual Salary Spend for the first two
sections, Opportunity Cost for the last two); zero-impact sections never
appear. -/
theorem claim5_chart_data (s : CalculatorState) :
    chartData s =
      (if 0 < s.adminWaste.impact then
        [{ name := "Manual Admin Waste", value := s.adminWaste.impact,
           color := "#6A1B9A", category := "Wasted Annual Salary Spend" }] else []) ++
      (if 0 < s.siloedCollaboration.impact then
        [{ name := "Siloed Collaboration", value := s.siloedCollaboration.impact,
           color := "#8E24AA", category := "Wasted Annual Salary Spend" }] else []) ++
      (if 0 < s.missedUpgrades.impact then
        [{ name := "Missed Upgrades", value := s.missedUpgrades.impact,
           color := "#AB47BC", category := "Opportunity Cost" }] else []) ++
      (if 0 < s.donorLapse.impact then
        [{ name := "Donor Lapse", value := s.donorLapse.impact,
           color := "#42F2F7", category := "Opportunity Cost" }] else []) ∧
    (∀ e ∈ chartData s, 0 < e.value) := by
  constructor
  · by_cases h1 : 0 < s.adminWaste.impact <;>
      by_cases h2 : 0 < s.siloedCollaboration.impact <;>
        by_cases h3 : 0 < s.missedUpgrades.impact <;>
          by_cases h4 : 0 < s.donorLapse.impact <;>
            simp [chartData, List.filter_cons, h1, h2, h3, h4]
  · intro e he
    unfold chartData at he
    rw [List.mem_filter] at he
    simpa using he.2

/-- C1: on a complete state with all input fields set to non-negative
numbers, the calculation step stores as each section's impact exactly the
rounded value of its fixed formula; in particular
AdminWaste(125000, 15, 4) gives impact 187500 and
DonorLapse(15, 10000, 2) gives impact 300000. -/
theorem claim1_impact_formulas (s : CalculatorState) :
    (∀ a h m : ℚ, s.adminWaste.annualSalary = some a →
      s.adminWaste.hoursPerWeek = some h → s.adminWaste.numberOfMGOs = some m →
      0 ≤ a → 0 ≤ h → 0 ≤ m →
      (calculateImpact s).adminWaste.impact = mathRound (a / 2080 * h * 52 * m)) ∧
    (∀ a h u : ℚ, s.siloedCollaboration.annualSalary = some a →
      s.siloedCollaboration.hoursWasted = some h →
      s.siloedCollaboration.numberOfUsers = some u →
      0 ≤ a → 0 ≤ h → 0 ≤ u →
      (calculateImpact s).siloedCollaboration.impact = mathRound (a / 2080 * h * 52 * u)) ∧
    (∀ d g u r : ℚ, s.missedUpgrades.upgradableDonors = some d →
      s.missedUpgrades.averageGiftSize = some g →
      s.missedUpgrades.upgradePercentage = some u →
      s.missedUpgrades.realizationRate = some r →
      0 ≤ d → 0 ≤ g → 0 ≤ u → 0 ≤ r →
      (calculateImpact s).missedUpgrades.impact = mathRound (d * g * (u / 100) * (r / 100))) ∧
    (∀ l g p : ℚ, s.donorLapse.lapsedDonors = some l →
      s.donorLapse.averageGift = some g → s.donorLapse.numberOfPortfolios = some p →
      0 ≤ l → 0 ≤ g → 0 ≤ p →
      (calculateImpact s).donorLapse.impact = mathRound (l * g * p)) ∧
    (calculateImpact exampleState).adminWaste.impact = 187500 ∧
    (calculateImpact exampleState).donorLapse.impact = 300000 := by
  refine ⟨?_, ?_, ?_, ?_,
    by norm_num [calculateImpact, exampleState, adminWasteImpactRaw, numOr0, mathRound],
    by norm_num [calculateImpact, exampleState, donorLapseImpactRaw, numOr0, mathRound]⟩
  · intro a h m ha hh hm _ _ _
    simp [calculateImpact, adminWasteImpactRaw, numOr0, ha, hh, hm]
  · intro a h u ha hh hu _ _ _
    simp [calculateImpact, siloedCollaborationImpactRaw, numOr0, ha, hh, hu]
  · intro d g u r hd hg hu hr _ _ _ _
    simp [calculateImpact, missedUpgradesImpactRaw, numOr0, hd, hg, hu, hr]
  · intro l g p hl hg hp _ _ _
    simp [calculateImpact, donorLapseImpactRaw, numOr0, hl, hg, hp]

/-- C3: findNextIncompleteSection scans the fixed order starting just
after the active section, wrapping around to the start at most once, and
returns the first incomplete section found, or the active section when
every other section is complete; with completion flags
[true, false, true, true] and the active section at index 2, it returns
the section at index 1 via wraparound. -/
theorem claim3_next_incomplete_scan (s : CalculatorState) (activeTab : Section) :
    findNextIncompleteSection s activeTab =
      (((sectionsOrder.drop (sectionIndex activeTab + 1)) ++
          sectionsOrder.take (sectionIndex activeTab)).find?
        (fun sec => !isSectionComplete sec s)).getD activeTab ∧
    findNextIncompleteSection exampleC3State .missedUpgrades = .siloedCollaboration := by
  refine ⟨?_, by decide⟩
  unfold findNextIncompleteSection
  cases hd : ((sectionsOrder.drop (sectionIndex activeTab + 1)).find?
      (fun sec => !isSectionComplete sec s)) with
  | some sec => simp [List.find?_append, hd]
  | none =>
      cases ht : ((sectionsOrder.take (sectionIndex activeTab)).find?
          (fun sec => !isSectionComplete sec s)) with
      | some sec => simp [List.find?_append, hd, ht]
      | none => simp [List.find?_append, hd, ht]

/-- C6: isSectionComplete holds exactly when every input field of the
section (impact excluded) is set, and allSectionsCompleted holds exactly
when all four sections are complete. -/
theorem claim6_section_complete (s : CalculatorState) :
    (∀ sec : Section, isSectionComplete sec s = true ↔
      ∀ f ∈ sectionInputFields sec, (getField f s).isSome = true) ∧
    (allSectionsCompleted s = true ↔
      ∀ sec : Section, isSectionComplete sec s = true) := by
  constructor
  · intro sec
    cases sec <;>
      simp [isSectionComplete, sectionInputFields, getField, and_assoc]
  · unfold allSectionsCompleted
    simp only [Bool.and_eq_true]
    constructor
    · rintro ⟨⟨⟨h1, h2⟩, h3⟩, h4⟩ sec
      cases sec <;> assumption
    · intro h
      exact ⟨⟨⟨h _, h _⟩, h _⟩, h _⟩

theorem state_eq_of_inputs_impacts (s1 s2 : CalculatorState)
    (hi : inputsOf s1 = inputsOf s2) (hm : impacts s1 = impacts s2) : s1 = s2 := by
  obtain ⟨⟨a1, a2, a3, a4⟩, ⟨b1, b2, b3, b4⟩, ⟨c1, c2, c3, c4, c5⟩, ⟨d1, d2, d3, d4⟩⟩ := s1
  obtain ⟨⟨a1', a2', a3', a4'⟩, ⟨b1', b2', b3', b4'⟩, ⟨c1', c2', c3', c4', c5'⟩,
    ⟨d1', d2', d3', d4'⟩⟩ := s2
  simp_all [inputsOf, impacts, Inputs.mk.injEq, Prod.mk.injEq, CalculatorState.mk.injEq,
    AdminWasteState.mk.injEq, SiloedCollaborationState.mk.injEq,
    MissedUpgradesState.mk.injEq, DonorLapseState.mk.injEq]

/-- C7: every operation preserves the invariant that each input field is
unset or a non-negative number; the impact fields are 0 initially, are
unchanged by field edits, and are written only by the calculation step,
which sets them to the rounded results of the four formulas. -/
theorem claim7_state_invariant :
    (∀ s : CalculatorState, Reachable s → ∀ f : Field, optNonneg (getField f s)) ∧
    impacts initialState = (0, 0, 0, 0) ∧
    (∀ (f : Field) (v : String) (s : CalculatorState),
      impacts (handleInputChange f v s) = impacts s) ∧
    (∀ s : CalculatorState, impacts (calculateImpact s) =
      (mathRound (adminWasteImpactRaw s), mathRound (siloedCollaborationImpactRaw s),
        mathRound (missedUpgradesImpactRaw s), mathRound (donorLapseImpactRaw s))) := by
  refine ⟨?_, rfl, impacts_handleInputChange, impacts_calculateImpact⟩
  intro s hs
  induction hs with
  | init =>
      intro f q hq
      cases f <;> simp [getField, initialState] at hq
  | edit f v s _ ih =>
      intro g q hq
      rw [getField_handleInputChange] at hq
      split at hq
      · exact parseFormattedNumber_nonneg v q hq
      · exact ih g q hq
  | calcRun s _ ih =>
      intro g q hq
      rw [getField_calculateImpact] at hq
      exact ih g q hq

/-- C8: the calculation step is a pure function of the input fields:
states agreeing on inputs get identical impacts, and recomputing on an
unchanged input state reproduces the same impacts, totals, and chart
data. -/
theorem claim8_pure_recompute (s t : CalculatorState) (hst : inputsOf s = inputsOf t) :
    impacts (calculateImpact s) = impacts (calculateImpact t) ∧
    calculateImpact (calculateImpact s) = calculateImpact s ∧
    totalImpact (calculateImpact (calculateImpact s)) = totalImpact (calculateImpact s) ∧
    wastedAnnualSalarySpend (calculateImpact (calculateImpact s)) =
      wastedAnnualSalarySpend (calculateImpact s) ∧
    opportunityCost (calculateImpact (calculateImpact s)) =
      opportunityCost (calculateImpact s) ∧
    chartData (calculateImpact (calculateImpact s)) = chartData (calculateImpact s) := by
  have h1 : s.adminWaste.annualSalary = t.adminWaste.annualSalary :=
    congrArg Inputs.awAnnualSalary hst
  have h2 : s.adminWaste.hoursPerWeek = t.adminWaste.hoursPerWeek :=
    congrArg Inputs.awHoursPerWeek hst
  have h3 : s.adminWaste.numberOfMGOs = t.adminWaste.numberOfMGOs :=
    congrArg Inputs.awNumberOfMGOs hst
  have h4 : s.siloedCollaboration.annualSalary = t.siloedCollaboration.annualSalary :=
    congrArg Inputs.scAnnualSalary hst
  have h5 : s.siloedCollaboration.hoursWasted = t.siloedCollaboration.hoursWasted :=
    congrArg Inputs.scHoursWasted hst
  have h6 : s.siloedCollaboration.numberOfUsers = t.siloedCollaboration.numberOfUsers :=
    congrArg Inputs.scNumberOfUsers hst
  have h7 : s.missedUpgrades.upgradableDonors = t.missedUpgrades.upgradableDonors :=
    congrArg Inputs.muUpgradableDonors hst
  have h8 : s.missedUpgrades.averageGiftSize = t.missedUpgrades.averageGiftSize :=
    congrArg Inputs.muAverageGiftSize hst
  have h9 : s.missedUpgrades.upgradePercentage = t.missedUpgrades.upgradePercentage :=
    congrArg Inputs.muUpgradePercentage hst
  have h10 : s.missedUpgrades.realizationRate = t.missedUpgrades.realizationRate :=
    congrArg Inputs.muRealizationRate hst
  have h11 : s.donorLapse.lapsedDonors = t.donorLapse.lapsedDonors :=
    congrArg Inputs.dlLapsedDonors hst
  have h12 : s.donorLapse.averageGift = t.donorLapse.averageGift :=
    congrArg Inputs.dlAverageGift hst
  have h13 : s.donorLapse.numberOfPortfolios = t.donorLapse.numberOfPortfolios :=
    congrArg Inputs.dlNumberOfPortfolios hst
  refine ⟨?_, rfl, rfl, rfl, rfl, rfl⟩
  simp only [impacts_calculateImpact, adminWasteImpactRaw, siloedCollaborationImpactRaw,
    missedUpgradesImpactRaw, donorLapseImpactRaw, h1, h2, h3, h4, h5, h6, h7, h8, h9,
    h10, h11, h12, h13]

/-- C8 witness: the pure-recompute statement instantiated at the example
state compared with itself. -/
theorem claim8_pure_recompute_witness :
    impacts (calculateImpact exampleState) = impacts (calculateImpact exampleState) ∧
    calculateImpact (calculateImpact exampleState) = calculateImpact exampleState ∧
    totalImpact (calculateImpact (calculateImpact exampleState)) =
      totalImpact (calculateImpact exampleState) ∧
    wastedAnnualSalarySpend (calculateImpact (calculateImpact exampleState)) =
      wastedAnnualSalarySpend (calculateImpact exampleState) ∧
    opportunityCost (calculateImpact (calculateImpact exampleState)) =
      opportunityCost (calculateImpact exampleState) ∧
    chartData (calculateImpact (calculateImpact exampleState)) =
      chartData (calculateImpact exampleState) :=
  claim8_pure_recompute exampleState exampleState rfl

/-- C9: the calculation step writes the four impact fields together in one
state update, to the rounded formula results, and leaves every input field
unchanged (a calculator state is determined by its inputs and impacts); a
field edit changes only the one named field and no impact field. -/
theorem claim9_frame (f : Field) (v : String) (s : CalculatorState) :
    inputsOf (calculateImpact s) = inputsOf s ∧
    impacts (calculateImpact s) =
      (mathRound (adminWasteImpactRaw s), mathRound (siloedCollaborationImpactRaw s),
        mathRound (missedUpgradesImpactRaw s), mathRound (donorLapseImpactRaw s)) ∧
    (∀ s1 s2 : CalculatorState, inputsOf s1 = inputsOf s2 → impacts s1 = impacts s2 →
      s1 = s2) ∧
    (∀ g : Field, g ≠ f → getField g (handleInputChange f v s) = getField g s) ∧
    getField f (handleInputChange f v s) = parseFormattedNumber v ∧
    impacts (handleInputChange f v s) = impacts s := by
  refine ⟨rfl, rfl, state_eq_of_inputs_impacts, ?_, ?_, impacts_handleInputChange f v s⟩
  · intro g hg
    rw [getField_handleInputChange, if_neg hg]
  · rw [getField_handleInputChange, if_pos rfl]

end ROICalculator

